import Mathlib

/-!
# Verification of the mise-backend extraction pipeline and usage governor

Shallow embedding of the cost-governance and extraction-pipeline core of the
mise backend (a Node/Express service).  Database rows become explicit state
records, wall-clock reads become an explicit `Clock` argument, and the
external AI model / JSON parser become explicit oracle arguments.  Money is
modelled as `ℚ` (the store keeps `DECIMAL(10,4)` values and the service
compares them with `parseFloat`).

Sections:
* Spending Ledger (`src/services/spending.js`)
* Usage Resolver (`src/services/usage.js`, `src/services/auth.js`)
* Rate Limiter (`src/middleware/rateLimiter.js`)
* AI-response processing and pipeline stages (`src/services/recipes.js`)
* Route handlers (`src/routes/recipes.js`), modelled as pure functions from
  an environment of oracle outcomes to an HTTP status plus recorded effects.
-/

namespace Mise

/-! ## Configuration (`src/config/index.js`) -/

def COST_PER_URL_RECIPE : ℚ := 3 / 100

def COST_PER_PHOTO_RECIPE : ℚ := 6 / 100

def DAILY_SPENDING_LIMIT : ℚ := 10

def MONTHLY_SPENDING_LIMIT : ℚ := 100

def INITIAL_FREE_RECIPES : Int := 10

def FREE_RECIPES_PER_MONTH : Int := 3

def BASIC_RECIPES_PER_MONTH : Int := 20

/-! ## Spending Ledger (`src/services/spending.js`)

The ledger is a single database row.  The service reads the wall clock with
`new Date().toISOString().slice(0, 10)` (calendar day) and `.slice(0, 7)`
(calendar month) and only ever compares those strings for equality, so the
clock is modelled as a pair of opaque identifiers. -/

/-- The singleton `spending_tracker` row. -/
structure SpendingTracker where
  daily_date : Nat
  daily_amount : ℚ
  monthly_month : Nat
  monthly_amount : ℚ
  paused : Bool
deriving Repr, DecidableEq

/-- Wall-clock reading: current calendar day and calendar month. -/
structure Clock where
  day : Nat
  month : Nat
deriving Repr, DecidableEq

/-- `getOrResetSpending`: lazy period rollover.  A new day zeroes the daily
accumulator; a new month zeroes the monthly accumulator and clears `paused`. -/
def getOrResetSpending (now : Clock) (t : SpendingTracker) : SpendingTracker :=
  let t1 :=
    if t.daily_date ≠ now.day then
      { t with daily_date := now.day, daily_amount := 0 }
    else t
  if t1.monthly_month ≠ now.month then
    { t1 with monthly_month := now.month, monthly_amount := 0, paused := false }
  else t1

/-- `checkSpendingLimits`: apply pending resets, recompute the breaker from
the accumulators and the configured ceilings, and store it.  Returns the
breaker value together with the updated row. -/
def checkSpendingLimits (now : Clock) (t : SpendingTracker) : Bool × SpendingTracker :=
  let tr := getOrResetSpending now t
  let shouldPause :=
    decide (DAILY_SPENDING_LIMIT ≤ tr.daily_amount) ||
    decide (MONTHLY_SPENDING_LIMIT ≤ tr.monthly_amount)
  (shouldPause, { tr with paused := shouldPause })

/-- `trackSpending`: the row-level `UPDATE ... SET daily_amount = daily_amount + $1,
monthly_amount = monthly_amount + $1` runs first, then `checkSpendingLimits`. -/
def trackSpending (now : Clock) (amount : ℚ) (t : SpendingTracker) : Bool × SpendingTracker :=
  checkSpendingLimits now
    { t with daily_amount := t.daily_amount + amount,
             monthly_amount := t.monthly_amount + amount }

/-- `isSystemPaused`: the breaker state as observed by callers. -/
def isSystemPaused (now : Clock) (t : SpendingTracker) : Bool × SpendingTracker :=
  checkSpendingLimits now t

/-! ## Usage Resolver (`src/services/usage.js`, `src/services/auth.js`)

A `users` row as far as the resolver reads it; counters are JS numbers on
integral values, so `Int`.  The anonymous side is the `recipes_used` counter
of the `anonymous_usage` row fetched (or created at 0) by
`getAnonymousUsage`; `none` models a request without a fingerprint. -/

/-- The fields of a `users` row consulted by the resolver. -/
structure User where
  subscription : Option String
  recipes_used_this_month : Int
  month_started : Nat
deriving Repr, DecidableEq

/-- `resetMonthlyUsageIfNeeded` (`src/services/auth.js`): zero the monthly
counter when the stored month differs from the current month. -/
def resetMonthlyUsageIfNeeded (currentMonth : Nat) (u : User) : User :=
  if u.month_started ≠ currentMonth then
    { u with recipes_used_this_month := 0, month_started := currentMonth }
  else u

/-- The JSON object returned by `canCleanRecipe`; absent keys are `none`. -/
structure CanCleanResult where
  allowed : Bool
  reason : Option String := none
  remaining : Option Int := none
  upgrade : Option Bool := none
  isAnonymous : Option Bool := none
  requiresSignup : Option Bool := none
  message : Option String := none
deriving Repr, DecidableEq

/-- `canCleanRecipe(user, fingerprint, ip)`: global pause check first, then
the authenticated tiers, then the anonymous fingerprint allowance, then the
no-tracking refusal.  `anonUsed` is the `recipes_used` value of the
fingerprint's row (`none` when no fingerprint was supplied). -/
def canCleanRecipe (now : Clock) (t : SpendingTracker) (user : Option User)
    (anonUsed : Option Int) : CanCleanResult :=
  if (isSystemPaused now t).1 then
    { allowed := false, reason := some "system_limit" }
  else
    match user with
    | some u0 =>
      let u := resetMonthlyUsageIfNeeded now.month u0
      if u.subscription = some "pro" then { allowed := true }
      else if u.subscription = some "basic" then
        { allowed := decide (u.recipes_used_this_month < BASIC_RECIPES_PER_MONTH),
          remaining := some (BASIC_RECIPES_PER_MONTH - u.recipes_used_this_month) }
      else
        { allowed := decide (u.recipes_used_this_month < FREE_RECIPES_PER_MONTH),
          remaining := some (FREE_RECIPES_PER_MONTH - u.recipes_used_this_month),
          upgrade := some (decide (FREE_RECIPES_PER_MONTH ≤ u.recipes_used_this_month)) }
    | none =>
      match anonUsed with
      | some used =>
        if used < INITIAL_FREE_RECIPES then
          { allowed := true,
            remaining := some (INITIAL_FREE_RECIPES - used),
            isAnonymous := some true }
        else
          { allowed := false, reason := some "initial_limit", requiresSignup := some true,
            message := some "You\x27ve used your 10 free recipes! Sign up free to get 3 more each month." }
      | none => { allowed := false, reason := some "no_tracking" }

/-! ## Rate Limiter (`src/middleware/rateLimiter.js`)

One entry of the in-memory `requests` map, for a single key (user id or IP).
Timestamps are `Date.now()` milliseconds. -/

/-- A per-identity window record of the `requests` map. -/
structure RateData where
  windowStart : Nat
  count : Nat
deriving Repr, DecidableEq

/-- One execution of the middleware produced by `rateLimiter({windowMs, max})`
for a fixed key: look up the entry (`none` if absent), replace it with a
fresh window when expired, increment, and pass the request through exactly
when the count has not exceeded `max`. -/
def rateLimitStep (windowMs maxReq : Nat) (now : Nat) (st : Option RateData) :
    Bool × RateData :=
  let data : RateData :=
    match st with
    | some d =>
      if windowMs < now - d.windowStart then { windowStart := now, count := 0 } else d
    | none => { windowStart := now, count := 0 }
  let data2 : RateData := { data with count := data.count + 1 }
  (decide (data2.count ≤ maxReq), data2)

/-- `recipeRateLimiter = rateLimiter({ windowMs: 60000, max: 10 })`. -/
def recipeRateLimiter (now : Nat) (st : Option RateData) : Bool × RateData :=
  rateLimitStep 60000 10 now st

/-- Fold `rateLimitStep` over a sequence of request timestamps for one key,
counting how many requests were passed through. -/
def runLimiter (windowMs maxReq : Nat) : List Nat → Option RateData → Nat × Option RateData
  | [], st => (0, st)
  | now :: rest, st =>
    let step := rateLimitStep windowMs maxReq now st
    let restRun := runLimiter windowMs maxReq rest (some step.2)
    ((if step.1 then 1 else 0) + restRun.1, restRun.2)

/-! ## AI-response processing (`src/services/recipes.js`)

Every AI-invoking function post-processes the model response the same way:
join the content blocks to a string, strip markdown code fences, trim, and
take the greedy match of the regular expression `\x7b[\s\S]*\x7d` (from the
first opening brace to the last closing brace).  Text is modelled as
`List Char`; `JSON.parse` is an oracle argument, since its success and value
depend on the model output. -/

/-- The literal char sequence of a markdown fence, written via escapes. -/
def fenceJson : List Char := '\x60' :: '\x60' :: '\x60' :: 'j' :: 's' :: 'o' :: 'n' :: []

/-- The bare three-backtick fence. -/
def fenceBare : List Char := '\x60' :: '\x60' :: '\x60' :: []

/-- Drop one optional newline, used because both fence patterns end in an
optional newline in the source regexes. -/
def dropOptNewline : List Char → List Char
  | '\n' :: rest => rest
  | l => l

/-- Fuel-bounded global replacement of a fence pattern (plus optional
trailing newline) by the empty string; fuel `l.length` suffices because each
step consumes at least one character. -/
def replaceFenceAux (pat : List Char) : Nat → List Char → List Char
  | 0, l => l
  | _ + 1, [] => []
  | fuel + 1, c :: cs =>
    if pat.isPrefixOf (c :: cs) then
      replaceFenceAux pat fuel (dropOptNewline ((c :: cs).drop pat.length))
    else
      c :: replaceFenceAux pat fuel cs

/-- `text.replace(re, blank)` for a fence pattern. -/
def replaceFence (pat : List Char) (l : List Char) : List Char :=
  replaceFenceAux pat l.length l

/-- JS whitespace as far as these responses use it. -/
def isWs (c : Char) : Bool :=
  c = ' ' || c = '\n' || c = '\t' || c = '\r'

/-- `String.prototype.trim`. -/
def trimChars (l : List Char) : List Char :=
  ((l.dropWhile isWs).reverse.dropWhile isWs).reverse

/-- Index of the first occurrence of `c`, if any. -/
def idxOfFirst (c : Char) : List Char → Option Nat
  | [] => none
  | x :: xs =>
    if x = c then some 0
    else (idxOfFirst c xs).map (· + 1)

/-- Index of the last occurrence of `c`, if any. -/
def idxOfLast (c : Char) (l : List Char) : Option Nat :=
  (idxOfFirst c l.reverse).map (fun i => l.length - 1 - i)

/-- The greedy brace match: the slice from the first opening brace to the
last closing brace, provided the latter comes after the former; otherwise no
match.  This is exactly the JS regex used on every model response. -/
def jsonCandidate (l : List Char) : Option (List Char) :=
  match idxOfFirst '\x7b' l, idxOfLast '\x7d' l with
  | some i, some j => if i < j then some ((l.drop i).take (j - i + 1)) else none
  | _, _ => none

/-- The full shared post-processing: strip fenced-block markers, trim, then
the greedy brace match. -/
def processResponse (text : List Char) : Option (List Char) :=
  jsonCandidate (trimChars (replaceFence fenceBare (replaceFence fenceJson text)))

/-! ## Pipeline stages (`src/services/recipes.js`)

`JSON.parse` of a matched slice is an oracle `parse : List Char → Option _`
(`none` models a parse exception); recipe payloads of the AI round-trip
stages are abstract, since those stages never inspect them. -/

/-- A step after coercion: `instruction` may still be absent. -/
structure Step where
  instruction : Option String
  ingredients : List String
deriving Repr, DecidableEq

/-- A raw step as it arrives from parsed JSON: a bare string, or an object
whose `instruction` / `ingredients` keys may be missing. -/
inductive RawStep where
  | str (s : String)
  | obj (instruction : Option String) (ingredients : Option (List String))
deriving Repr, DecidableEq

/-- The candidate-recipe fields that `validateAndFixRecipe` reads or writes;
`none` is an absent key.  All other keys pass through the function untouched
and are omitted here. -/
structure RawRecipe where
  title : Option String
  servings : Option Int
  ingredients : Option (List String)
  steps : Option (List RawStep)
deriving Repr, DecidableEq

/-- The corresponding fields after `validateAndFixRecipe`. -/
structure FixedRecipe where
  title : String
  servings : Int
  ingredients : List String
  steps : List Step
deriving Repr, DecidableEq

/-- `(typeof s === 'string' ? s : s.instruction)?.length`: the length the
issue scan sees, absent when the step object has no instruction. -/
def stepLen : RawStep → Option Nat
  | .str s => some s.length
  | .obj instr _ => instr.map String.length

def MAX_STEP_LENGTH : Nat := 400

/-- `validateAndFixRecipe`: default missing title/servings/arrays, scan the
raw step list for issue tags, then coerce string steps to objects and drop
steps whose instruction trims to 10 characters or fewer.  The issue scan
runs on the raw list, before coercion and filtering. -/
def validateAndFixRecipe (r : RawRecipe) : FixedRecipe × List String :=
  let title :=
    match r.title with
    | some s => if s = "" then "Recipe" else s
    | none => "Recipe"
  let servings :=
    match r.servings with
    | some n => if n = 0 then 4 else n
    | none => 4
  let ingredients := r.ingredients.getD []
  let steps0 := r.steps.getD []
  let issues :=
    (if steps0.any (fun s =>
        match stepLen s with
        | some l => decide (MAX_STEP_LENGTH < l)
        | none => false) then ["steps_too_long"] else []) ++
    (if 5 < ingredients.length ∧ steps0.length < 3 then ["too_few_steps"] else [])
  let steps1 := steps0.map (fun s =>
    match s with
    | .str t => ({ instruction := some t, ingredients := [] } : Step)
    | .obj i ing => { instruction := i, ingredients := ing.getD [] })
  let steps2 := steps1.filter (fun s =>
    match s.instruction with
    | some i => decide (10 < (trimChars i.data).length)
    | none => false)
  ({ title := title, servings := servings, ingredients := ingredients, steps := steps2 },
   issues)

/-- `enhanceRecipeWithDualUnits` (fast-path dual-unit call): when the
response has no brace match the function returns its input recipe, and a
`JSON.parse` exception is caught by the surrounding try/catch which also
returns the input recipe; otherwise the parsed object replaces the recipe. -/
def enhanceRecipeWithDualUnits {α : Type} (recipe : α)
    (parse : List Char → Option α) (text : List Char) : α :=
  match processResponse text with
  | none => recipe
  | some s =>
    match parse s with
    | some enhanced => enhanced
    | none => recipe

/-- `fixRecipeIssues` (one-shot repair): with no issues the recipe is
returned untouched without any AI call; otherwise like the enhancement call,
any failure to obtain parsed JSON falls back to the input recipe. -/
def fixRecipeIssues {α : Type} (recipe : α) (issues : List String)
    (parse : List Char → Option α) (text : List Char) : α :=
  if issues.isEmpty then recipe
  else
    match processResponse text with
    | none => recipe
    | some s => (parse s).getD recipe

/-- `extractRecipeFromUrl` (slow path): no brace match throws
`No JSON found in response`; a `JSON.parse` exception also propagates. -/
def extractRecipeFromUrl {α : Type} (parse : List Char → Option α)
    (text : List Char) : Except String α :=
  match processResponse text with
  | none => Except.error "No JSON found in response"
  | some s =>
    match parse s with
    | some r => Except.ok r
    | none => Except.error "JSON.parse failed"

/-- `extractRecipeFromPhotos`: same terminal handling of the response. -/
def extractRecipeFromPhotos {α : Type} (parse : List Char → Option α)
    (text : List Char) : Except String α :=
  match processResponse text with
  | none => Except.error "No JSON found in response"
  | some s =>
    match parse s with
    | some r => Except.ok r
    | none => Except.error "JSON.parse failed"

/-- `extractRecipeFromYouTube`: same terminal handling of the response. -/
def extractRecipeFromYouTube {α : Type} (parse : List Char → Option α)
    (text : List Char) : Except String α :=
  match processResponse text with
  | none => Except.error "No JSON found in response"
  | some s =>
    match parse s with
    | some r => Except.ok r
    | none => Except.error "JSON.parse failed"

/-- The full Recipe record exchanged with the translator. -/
structure Recipe where
  title : String
  servings : Int
  prepTime : Option String
  cookTime : Option String
  imageUrl : Option String
  ingredients : List String
  steps : List Step
  tips : List String
  source : Option String
  sourceUrl : Option String
  author : Option String
deriving Repr, DecidableEq

/-- `translateRecipe`: no brace match throws `No valid JSON in response`;
after parsing, `source`, `sourceUrl` and `imageUrl` are overwritten from the
input recipe; every other field is whatever the model returned. -/
def translateRecipe (recipe : Recipe) (parse : List Char → Option Recipe)
    (text : List Char) : Except String Recipe :=
  match processResponse text with
  | none => Except.error "No valid JSON in response"
  | some s =>
    match parse s with
    | none => Except.error "JSON.parse failed"
    | some translatedRecipe =>
      Except.ok { translatedRecipe with
        source := recipe.source,
        sourceUrl := recipe.sourceUrl,
        imageUrl := recipe.imageUrl }

/-! ## Route handlers (`src/routes/recipes.js`)

Each extraction handler is modelled as a pure function from an environment —
the ledger row, the caller's identity, and the outcomes of the external
calls the handler makes — to the HTTP status it settles with plus the
side effects it performed.  A thrown error settles as 500 through
`asyncHandler`/`errorHandler`.  `fixRecipeIssues` and
`enhanceRecipeWithDualUnits` swallow their own failures (see above), so they
introduce no failure branch. -/

/-- Side effects a handler may perform, in particular the usage commits
(`incrementUserUsage` / `incrementAnonymousUsage`) and `trackSpending`. -/
structure Effects where
  consultedLedger : Bool := false
  consultedResolver : Bool := false
  userIncremented : Bool := false
  anonIncremented : Bool := false
  spends : List ℚ := []
deriving Repr, DecidableEq

/-- Effects present in every handler run: `canCleanRecipe` (the resolver) is
called first and itself consults the ledger through `isSystemPaused`. -/
def gateEffects : Effects :=
  { consultedLedger := true, consultedResolver := true }

/-- Environment of `POST /clean-url`: `html = none` models `fetchWebpage`
returning null; `schemaFound` is whether `extractRecipeSchema` found a
Recipe object; `aiResponse = none` models the AI provider call rejecting;
`parseOk` is whether `JSON.parse` succeeds on the matched slice. -/
structure CleanUrlEnv where
  now : Clock
  tracker : SpendingTracker
  user : Option User
  fingerprint : Option Int
  html : Option Unit
  schemaFound : Bool
  aiResponse : Option (List Char)
  parseOk : Bool

/-- The `POST /clean-url` handler body. -/
def cleanUrlHandler (e : CleanUrlEnv) : Nat × Effects :=
  let canClean := canCleanRecipe e.now e.tracker e.user e.fingerprint
  if !canClean.allowed then (402, gateEffects)
  else
    match e.html with
    | none => (400, gateEffects)
    | some _ =>
      if e.schemaFound then
        (200, { gateEffects with
          userIncremented := e.user.isSome,
          anonIncremented := !e.user.isSome && e.fingerprint.isSome,
          spends := [COST_PER_URL_RECIPE * (1 / 2)] })
      else
        match e.aiResponse with
        | none => (500, gateEffects)
        | some text =>
          match processResponse text with
          | none => (500, gateEffects)
          | some _ =>
            if !e.parseOk then (500, gateEffects)
            else
              (200, { gateEffects with
                userIncremented := e.user.isSome,
                anonIncremented := !e.user.isSome && e.fingerprint.isSome,
                spends := [COST_PER_URL_RECIPE] })

/-- Environment of `POST /clean-photo`. -/
structure CleanPhotoEnv where
  now : Clock
  tracker : SpendingTracker
  user : Option User
  fingerprint : Option Int
  aiResponse : Option (List Char)
  parseOk : Bool

/-- The `POST /clean-photo` handler body. -/
def cleanPhotoHandler (e : CleanPhotoEnv) : Nat × Effects :=
  let canClean := canCleanRecipe e.now e.tracker e.user e.fingerprint
  if !canClean.allowed then (402, gateEffects)
  else
    match e.aiResponse with
    | none => (500, gateEffects)
    | some text =>
      match processResponse text with
      | none => (500, gateEffects)
      | some _ =>
        if !e.parseOk then (500, gateEffects)
        else
          (200, { gateEffects with
            userIncremented := e.user.isSome,
            anonIncremented := !e.user.isSome && e.fingerprint.isSome,
            spends := [COST_PER_PHOTO_RECIPE] })

/-- Environment of `POST /clean-youtube`: `videoIdFound` is whether the url
matched the video-id pattern; `transcript = none` models
`getYouTubeTranscript` throwing. -/
structure CleanYoutubeEnv where
  now : Clock
  tracker : SpendingTracker
  user : Option User
  fingerprint : Option Int
  videoIdFound : Bool
  transcript : Option (List Char)
  aiResponse : Option (List Char)
  parseOk : Bool

/-- The `POST /clean-youtube` handler body. -/
def cleanYoutubeHandler (e : CleanYoutubeEnv) : Nat × Effects :=
  let canClean := canCleanRecipe e.now e.tracker e.user e.fingerprint
  if !canClean.allowed then (402, gateEffects)
  else if !e.videoIdFound then (400, gateEffects)
  else
    match e.transcript with
    | none => (500, gateEffects)
    | some tr =>
      if tr.length < 50 then (400, gateEffects)
      else
        match e.aiResponse with
        | none => (500, gateEffects)
        | some text =>
          match processResponse text with
          | none => (500, gateEffects)
          | some _ =>
            if !e.parseOk then (500, gateEffects)
            else
              (200, { gateEffects with
                userIncremented := e.user.isSome,
                anonIncremented := !e.user.isSome && e.fingerprint.isSome,
                spends := [COST_PER_URL_RECIPE * (3 / 2)] })

/-- `router.post(endpoint, recipeRateLimiter, asyncHandler(handler))`: the
strict limiter runs before the handler; a limited request settles with 429
and the handler (hence ledger and resolver) never executes. -/
def cleanUrlRoute (now : Nat) (st : Option RateData) (e : CleanUrlEnv) :
    Nat × Effects × RateData :=
  let step := recipeRateLimiter now st
  if step.1 then
    let h := cleanUrlHandler e
    (h.1, h.2, step.2)
  else (429, {}, step.2)

/-- The rate-limited `POST /clean-photo` route. -/
def cleanPhotoRoute (now : Nat) (st : Option RateData) (e : CleanPhotoEnv) :
    Nat × Effects × RateData :=
  let step := recipeRateLimiter now st
  if step.1 then
    let h := cleanPhotoHandler e
    (h.1, h.2, step.2)
  else (429, {}, step.2)

/-- The rate-limited `POST /clean-youtube` route. -/
def cleanYoutubeRoute (now : Nat) (st : Option RateData) (e : CleanYoutubeEnv) :
    Nat × Effects × RateData :=
  let step := recipeRateLimiter now st
  if step.1 then
    let h := cleanYoutubeHandler e
    (h.1, h.2, step.2)
  else (429, {}, step.2)

/-! ## Theorems -/

/-- C2: as stated the claim is false.  `trackSpending` performs the
`daily_amount = daily_amount + $1` update before `checkSpendingLimits`
applies the pending daily reset, so a spend recorded at the first call after
a day boundary is wiped by the reset: starting from a row stamped with day 0
holding 5 daily, a spend of 2 on day 1 leaves the daily accumulator at 0,
not at the post-reset baseline 0 plus 2. -/
theorem trackSpending_boundary_counterexample :
    (trackSpending ⟨1, 0⟩ 2 ⟨0, 5, 0, 5, false⟩).2.daily_amount ≠
      (getOrResetSpending ⟨1, 0⟩ ⟨0, 5, 0, 5, false⟩).daily_amount + 2 := by
  norm_num [trackSpending, checkSpendingLimits, getOrResetSpending]

/-- C2 (amended): when no period reset is pending at the call (the stored day
and month match the clock), `trackSpending a` increases both accumulators by
exactly `a`, hence for `a ≥ 0` they are non-decreasing within their period;
at the first read access after a day or month boundary the corresponding
accumulator reads exactly zero; but a `trackSpending` call that is itself the
first access after a boundary has its amount wiped together with the stale
accumulator, so the accumulator then also reads zero rather than `a`. -/
theorem trackSpending_amended (now : Clock) (a : ℚ) (t : SpendingTracker) :
    (t.daily_date = now.day → t.monthly_month = now.month →
      (trackSpending now a t).2.daily_amount = t.daily_amount + a ∧
      (trackSpending now a t).2.monthly_amount = t.monthly_amount + a) ∧
    (0 ≤ a → t.daily_date = now.day → t.monthly_month = now.month →
      t.daily_amount ≤ (trackSpending now a t).2.daily_amount ∧
      t.monthly_amount ≤ (trackSpending now a t).2.monthly_amount) ∧
    (t.daily_date ≠ now.day → (isSystemPaused now t).2.daily_amount = 0) ∧
    (t.monthly_month ≠ now.month → (isSystemPaused now t).2.monthly_amount = 0) ∧
    (t.daily_date ≠ now.day → (trackSpending now a t).2.daily_amount = 0) ∧
    (t.monthly_month ≠ now.month → (trackSpending now a t).2.monthly_amount = 0) := by
  refine ⟨?_, ?_, ?_, ?_, ?_, ?_⟩
  · intro hd hm
    simp [trackSpending, checkSpendingLimits, getOrResetSpending, hd, hm]
  · intro ha hd hm
    constructor <;>
      simp [trackSpending, checkSpendingLimits, getOrResetSpending, hd, hm] <;>
      linarith
  · intro hd
    by_cases hm : t.monthly_month = now.month <;>
      simp [isSystemPaused, checkSpendingLimits, getOrResetSpending, hd, hm]
  · intro hm
    by_cases hd : t.daily_date = now.day <;>
      simp [isSystemPaused, checkSpendingLimits, getOrResetSpending, hd, hm]
  · intro hd
    by_cases hm : t.monthly_month = now.month <;>
      simp [trackSpending, checkSpendingLimits, getOrResetSpending, hd, hm]
  · intro hm
    by_cases hd : t.daily_date = now.day <;>
      simp [trackSpending, checkSpendingLimits, getOrResetSpending, hd, hm]

/-- Witness for C2 (amended) at a concrete in-period state: a spend of 3/100
on the day and month already stamped on the row raises both accumulators by
exactly 3/100. -/
theorem trackSpending_amended_witness :
    (trackSpending ⟨3, 7⟩ (3 / 100) ⟨3, 1, 7, 2, false⟩).2.daily_amount = 1 + 3 / 100 ∧
    (trackSpending ⟨3, 7⟩ (3 / 100) ⟨3, 1, 7, 2, false⟩).2.monthly_amount = 2 + 3 / 100 :=
  (trackSpending_amended ⟨3, 7⟩ (3 / 100) ⟨3, 1, 7, 2, false⟩).1 rfl rfl

/-- C3: the breaker observed through `isSystemPaused` is true exactly when the
post-reset daily accumulator has reached the daily ceiling or the post-reset
monthly accumulator has reached the monthly ceiling; a monthly-limit pause
survives any access in the same month (in particular a daily rollover), a
daily-limit pause survives any access on the same day (in particular a
monthly rollover), and both survive further non-negative spends within the
tripping period. -/
theorem paused_iff_ceiling_and_persistence (now : Clock) (t : SpendingTracker) :
    ((isSystemPaused now t).1 = true ↔
      DAILY_SPENDING_LIMIT ≤ (getOrResetSpending now t).daily_amount ∨
      MONTHLY_SPENDING_LIMIT ≤ (getOrResetSpending now t).monthly_amount) ∧
    (∀ (t2 : SpendingTracker) (now2 : Clock),
      MONTHLY_SPENDING_LIMIT ≤ t2.monthly_amount → now2.month = t2.monthly_month →
      (isSystemPaused now2 t2).1 = true) ∧
    (∀ (t2 : SpendingTracker) (now2 : Clock),
      DAILY_SPENDING_LIMIT ≤ t2.daily_amount → now2.day = t2.daily_date →
      (isSystemPaused now2 t2).1 = true) ∧
    (∀ (t2 : SpendingTracker) (now2 : Clock) (a : ℚ),
      0 ≤ a → MONTHLY_SPENDING_LIMIT ≤ t2.monthly_amount → now2.month = t2.monthly_month →
      (trackSpending now2 a t2).1 = true) ∧
    (∀ (t2 : SpendingTracker) (now2 : Clock) (a : ℚ),
      0 ≤ a → DAILY_SPENDING_LIMIT ≤ t2.daily_amount → now2.day = t2.daily_date →
      (trackSpending now2 a t2).1 = true) := by
  refine ⟨?_, ?_, ?_, ?_, ?_⟩
  · simp [isSystemPaused, checkSpendingLimits]
  · intro t2 now2 h hm
    by_cases hd : t2.daily_date = now2.day <;>
      simp [isSystemPaused, checkSpendingLimits, getOrResetSpending, hd, hm.symm, h]
  · intro t2 now2 h hd
    by_cases hm : t2.monthly_month = now2.month <;>
      simp [isSystemPaused, checkSpendingLimits, getOrResetSpending, hd.symm, hm, h]
  · intro t2 now2 a ha h hm
    have h2 : MONTHLY_SPENDING_LIMIT ≤ t2.monthly_amount + a := by linarith
    by_cases hd : t2.daily_date = now2.day <;>
      simp [trackSpending, checkSpendingLimits, getOrResetSpending, hd, hm.symm, h2]
  · intro t2 now2 a ha h hd
    have h2 : DAILY_SPENDING_LIMIT ≤ t2.daily_amount + a := by linarith
    by_cases hm : t2.monthly_month = now2.month <;>
      simp [trackSpending, checkSpendingLimits, getOrResetSpending, hd.symm, hm, h2]

/-- Witness for C3 at a concrete state: a row that tripped the monthly
ceiling is still reported paused at an access in the same month. -/
theorem paused_persistence_witness :
    (isSystemPaused ⟨5, 2⟩ ⟨5, 0, 2, 100, true⟩).1 = true :=
  (paused_iff_ceiling_and_persistence ⟨0, 0⟩ ⟨0, 0, 0, 0, false⟩).2.1
    ⟨5, 0, 2, 100, true⟩ ⟨5, 2⟩ (by norm_num [MONTHLY_SPENDING_LIMIT]) rfl

/-- C5: whenever the ledger reports paused, `canCleanRecipe` denies with
reason `system_limit` for every caller — the result does not depend on the
user (any tier, including pro) or on the fingerprint at all. -/
theorem pause_overrides_all (now : Clock) (t : SpendingTracker)
    (user : Option User) (anonUsed : Option Int)
    (hp : (isSystemPaused now t).1 = true) :
    canCleanRecipe now t user anonUsed =
      { allowed := false, reason := some "system_limit" } := by
  simp [canCleanRecipe, hp]

/-- Witness for C5: a pro user with plenty of quota is still denied with
`system_limit` once the daily ceiling is reached. -/
theorem pause_overrides_all_witness :
    canCleanRecipe ⟨0, 0⟩ ⟨0, 10, 0, 0, false⟩ (some ⟨some "pro", 0, 0⟩) (some 0) =
      { allowed := false, reason := some "system_limit" } :=
  pause_overrides_all ⟨0, 0⟩ ⟨0, 10, 0, 0, false⟩ (some ⟨some "pro", 0, 0⟩) (some 0)
    (by norm_num [isSystemPaused, checkSpendingLimits, getOrResetSpending,
      DAILY_SPENDING_LIMIT])

/-- C6: with the ledger not paused and the user's stored month current, a pro
user is always `{allowed: true}` whatever the counter; a basic user is
allowed exactly while the counter is below 20; a free signed-up user (neither
pro nor basic) exactly while the counter is below 3. -/
theorem tier_quota (now : Clock) (t : SpendingTracker) (u : User) (anonUsed : Option Int)
    (hp : (isSystemPaused now t).1 = false) (hm : u.month_started = now.month) :
    (u.subscription = some "pro" →
      canCleanRecipe now t (some u) anonUsed = { allowed := true }) ∧
    (u.subscription = some "basic" →
      ((canCleanRecipe now t (some u) anonUsed).allowed = true ↔
        u.recipes_used_this_month < BASIC_RECIPES_PER_MONTH)) ∧
    (u.subscription ≠ some "pro" → u.subscription ≠ some "basic" →
      ((canCleanRecipe now t (some u) anonUsed).allowed = true ↔
        u.recipes_used_this_month < FREE_RECIPES_PER_MONTH)) := by
  refine ⟨?_, ?_, ?_⟩ <;> intro hs <;>
    simp [canCleanRecipe, resetMonthlyUsageIfNeeded, hp, hm, hs]
  intro hs2
  simp [hs2]

/-- Witness for C6: a pro user far past every counter is allowed while the
system is unpaused. -/
theorem tier_quota_witness :
    canCleanRecipe ⟨0, 4⟩ ⟨0, 0, 4, 0, false⟩ (some ⟨some "pro", 1000, 4⟩) none =
      { allowed := true } :=
  (tier_quota ⟨0, 4⟩ ⟨0, 0, 4, 0, false⟩ ⟨some "pro", 1000, 4⟩ none
    (by norm_num [isSystemPaused, checkSpendingLimits, getOrResetSpending,
      DAILY_SPENDING_LIMIT, MONTHLY_SPENDING_LIMIT]) rfl).1 rfl

/-- C7: with the ledger not paused, an anonymous fingerprint at 9 used
recipes is allowed with remaining 1; at 10 or more it is denied with
`initial_limit` and `requiresSignup`; with neither user nor fingerprint the
request is denied with `no_tracking`. -/
theorem anon_quota (now : Clock) (t : SpendingTracker) (used : Int)
    (hp : (isSystemPaused now t).1 = false) :
    ((canCleanRecipe now t none (some (INITIAL_FREE_RECIPES - 1))).allowed = true ∧
     (canCleanRecipe now t none (some (INITIAL_FREE_RECIPES - 1))).remaining = some 1) ∧
    (INITIAL_FREE_RECIPES ≤ used →
      (canCleanRecipe now t none (some used)).allowed = false ∧
      (canCleanRecipe now t none (some used)).reason = some "initial_limit" ∧
      (canCleanRecipe now t none (some used)).requiresSignup = some true) ∧
    canCleanRecipe now t none none =
      { allowed := false, reason := some "no_tracking" } := by
  refine ⟨?_, ?_, ?_⟩
  · norm_num [canCleanRecipe, hp, INITIAL_FREE_RECIPES]
  · intro h
    have h' : ¬ used < INITIAL_FREE_RECIPES := not_lt.mpr h
    simp [canCleanRecipe, hp, h']
  · simp [canCleanRecipe, hp]

/-- C1: as stated the claim is false.  On a response with no brace match
(`processResponse` finds nothing), `fixRecipeIssues` and
`enhanceRecipeWithDualUnits` do not fail: each returns its input recipe
unchanged, so the pipeline continues with the partially-processed recipe. -/
theorem enhance_fix_no_json_counterexample :
    processResponse (String.toList "no json here") = none ∧
    @enhanceRecipeWithDualUnits Nat 7 (fun _ => none) (String.toList "no json here") = 7 ∧
    @fixRecipeIssues Nat 7 ["too_few_steps"] (fun _ => none)
      (String.toList "no json here") = 7 := by
  refine ⟨?_, ?_, ?_⟩ <;> rfl

/-- C1 (amended): when the model response contains no parseable JSON object,
the initial extraction calls (`extractRecipeFromUrl`,
`extractRecipeFromPhotos`, `extractRecipeFromYouTube`) and `translateRecipe`
terminate the extraction as a failure, but the repair stage
(`fixRecipeIssues`) and the fast-path enhancement stage
(`enhanceRecipeWithDualUnits`) instead fall back to returning their input
recipe unchanged, and the pipeline proceeds with it. -/
theorem no_json_terminal_behaviour {α : Type} (parse : List Char → Option α)
    (recipe : α) (issues : List String) (text : List Char)
    (h : processResponse text = none) :
    extractRecipeFromUrl parse text = Except.error "No JSON found in response" ∧
    extractRecipeFromPhotos parse text = Except.error "No JSON found in response" ∧
    extractRecipeFromYouTube parse text = Except.error "No JSON found in response" ∧
    (∀ (r : Recipe) (parseR : List Char → Option Recipe),
      translateRecipe r parseR text = Except.error "No valid JSON in response") ∧
    enhanceRecipeWithDualUnits recipe parse text = recipe ∧
    fixRecipeIssues recipe issues parse text = recipe := by
  refine ⟨?_, ?_, ?_, ?_, ?_, ?_⟩ <;>
    simp [extractRecipeFromUrl, extractRecipeFromPhotos, extractRecipeFromYouTube,
      translateRecipe, enhanceRecipeWithDualUnits, fixRecipeIssues, h]

/-- Witness for C1 (amended) on a concrete brace-free response. -/
theorem no_json_terminal_behaviour_witness :
    @enhanceRecipeWithDualUnits Nat 3 (fun _ => none) (String.toList "hello") = 3 :=
  (no_json_terminal_behaviour (fun _ => none) 3 [] (String.toList "hello")
    (by rfl)).2.2.2.2.1

/-- C4: as stated the claim is false.  `translateRecipe` overwrites only
`source`, `sourceUrl` and `imageUrl` from the input; the numeric `servings`
field is whatever the model returned: an input with `servings = 4` whose
translation response carries `servings = 6` yields `servings = 6`. -/
theorem translate_numeric_counterexample :
    (translateRecipe
        ⟨"Pasta", 4, none, none, some "img", [], [], [], some "example.com",
          some "u", none⟩
        (fun _ => some ⟨"Pates", 6, none, none, some "img", [], [], [],
          some "example.com", some "u", none⟩)
        (String.toList "\x7b\x7d")).toOption.map Recipe.servings ≠ some 4 := by
  decide

/-- C4 (amended): the Recipe returned by `translateRecipe` has `source`,
`sourceUrl` and `imageUrl` equal byte-for-byte to the input recipe's,
whatever the model returns; every other field — numeric fields such as
`servings`, and `author` — is taken from the parsed model output. -/
theorem translate_preserves_identity_fields (recipe tr : Recipe)
    (parse : List Char → Option Recipe) (text s : List Char)
    (h1 : processResponse text = some s) (h2 : parse s = some tr) :
    translateRecipe recipe parse text =
      Except.ok { tr with source := recipe.source, sourceUrl := recipe.sourceUrl,
                          imageUrl := recipe.imageUrl } := by
  simp [translateRecipe, h1, h2]

/-- Witness for C4 (amended) on a concrete translation exchange. -/
theorem translate_preserves_identity_fields_witness :
    translateRecipe ⟨"A", 4, none, none, some "i", [], [], [], some "s", some "u", some "a"⟩
        (fun _ => some ⟨"B", 9, none, none, none, [], [], [], none, none, none⟩)
        (String.toList "\x7b\x7d") =
      Except.ok ⟨"B", 9, none, none, some "i", [], [], [], some "s", some "u", none⟩ :=
  translate_preserves_identity_fields
    ⟨"A", 4, none, none, some "i", [], [], [], some "s", some "u", some "a"⟩
    ⟨"B", 9, none, none, none, [], [], [], none, none, none⟩
    (fun _ => some ⟨"B", 9, none, none, none, [], [], [], none, none, none⟩)
    (String.toList "\x7b\x7d") (String.toList "\x7b\x7d") (by rfl) rfl

/-- Helper for C8: the commit equations for the `/clean-url` handler. -/
theorem cleanUrl_commit_eq (e : CleanUrlEnv) :
    (cleanUrlHandler e).2.userIncremented =
      (decide ((cleanUrlHandler e).1 = 200) && e.user.isSome) ∧
    (cleanUrlHandler e).2.anonIncremented =
      (decide ((cleanUrlHandler e).1 = 200) && (!e.user.isSome && e.fingerprint.isSome)) := by
  rcases e with ⟨now, tracker, user, fp, html, schema, ai, po⟩
  cases hc : (canCleanRecipe now tracker user fp).allowed
  · simp [cleanUrlHandler, hc, gateEffects]
  · cases html with
    | none => simp [cleanUrlHandler, hc, gateEffects]
    | some u =>
      cases schema
      · cases ai with
        | none => simp [cleanUrlHandler, hc, gateEffects]
        | some text =>
          cases hpr : processResponse text with
          | none => simp [cleanUrlHandler, hc, hpr, gateEffects]
          | some s => cases po <;> simp [cleanUrlHandler, hc, hpr, gateEffects]
      · simp [cleanUrlHandler, hc, gateEffects]

/-- Helper for C8: the commit equations for the `/clean-photo` handler. -/
theorem cleanPhoto_commit_eq (e : CleanPhotoEnv) :
    (cleanPhotoHandler e).2.userIncremented =
      (decide ((cleanPhotoHandler e).1 = 200) && e.user.isSome) ∧
    (cleanPhotoHandler e).2.anonIncremented =
      (decide ((cleanPhotoHandler e).1 = 200) && (!e.user.isSome && e.fingerprint.isSome)) := by
  rcases e with ⟨now, tracker, user, fp, ai, po⟩
  cases hc : (canCleanRecipe now tracker user fp).allowed
  · simp [cleanPhotoHandler, hc, gateEffects]
  · cases ai with
    | none => simp [cleanPhotoHandler, hc, gateEffects]
    | some text =>
      cases hpr : processResponse text with
      | none => simp [cleanPhotoHandler, hc, hpr, gateEffects]
      | some s => cases po <;> simp [cleanPhotoHandler, hc, hpr, gateEffects]

/-- Helper for C8: the commit equations for the `/clean-youtube` handler. -/
theorem cleanYoutube_commit_eq (e : CleanYoutubeEnv) :
    (cleanYoutubeHandler e).2.userIncremented =
      (decide ((cleanYoutubeHandler e).1 = 200) && e.user.isSome) ∧
    (cleanYoutubeHandler e).2.anonIncremented =
      (decide ((cleanYoutubeHandler e).1 = 200) && (!e.user.isSome && e.fingerprint.isSome)) := by
  rcases e with ⟨now, tracker, user, fp, vid, tr, ai, po⟩
  cases hc : (canCleanRecipe now tracker user fp).allowed
  · simp [cleanYoutubeHandler, hc, gateEffects]
  · cases vid
    · simp [cleanYoutubeHandler, hc, gateEffects]
    · cases tr with
      | none => simp [cleanYoutubeHandler, hc, gateEffects]
      | some trc =>
        by_cases hl : trc.length < 50
        · simp [cleanYoutubeHandler, hc, hl, gateEffects]
        · cases ai with
          | none => simp [cleanYoutubeHandler, hc, hl, gateEffects]
          | some text =>
            cases hpr : processResponse text with
            | none => simp [cleanYoutubeHandler, hc, hl, hpr, gateEffects]
            | some s => cases po <;> simp [cleanYoutubeHandler, hc, hl, hpr, gateEffects]

/-- C8: in each of the three extraction handlers, the usage commits happen
exactly on the executions that settle with 200 — on every failing execution
(denied, fetch failure, invalid video id, short transcript, provider error,
no parseable JSON, parse failure) neither counter is incremented. -/
theorem usage_commit_only_on_success :
    (∀ e : CleanUrlEnv,
      (cleanUrlHandler e).2.userIncremented =
        (decide ((cleanUrlHandler e).1 = 200) && e.user.isSome) ∧
      (cleanUrlHandler e).2.anonIncremented =
        (decide ((cleanUrlHandler e).1 = 200) && (!e.user.isSome && e.fingerprint.isSome))) ∧
    (∀ e : CleanPhotoEnv,
      (cleanPhotoHandler e).2.userIncremented =
        (decide ((cleanPhotoHandler e).1 = 200) && e.user.isSome) ∧
      (cleanPhotoHandler e).2.anonIncremented =
        (decide ((cleanPhotoHandler e).1 = 200) && (!e.user.isSome && e.fingerprint.isSome))) ∧
    (∀ e : CleanYoutubeEnv,
      (cleanYoutubeHandler e).2.userIncremented =
        (decide ((cleanYoutubeHandler e).1 = 200) && e.user.isSome) ∧
      (cleanYoutubeHandler e).2.anonIncremented =
        (decide ((cleanYoutubeHandler e).1 = 200) && (!e.user.isSome && e.fingerprint.isSome))) := by
  exact ⟨cleanUrl_commit_eq, cleanPhoto_commit_eq, cleanYoutube_commit_eq⟩

/-- Helper: from a window opened at `w` with prior count `c`, a run of
requests that all fall inside the window passes at most `maxReq - c`. -/
theorem runLimiter_count_le (windowMs maxReq : Nat) (ts : List Nat) (w c : Nat)
    (h : ∀ u ∈ ts, u - w ≤ windowMs) :
    (runLimiter windowMs maxReq ts (some ⟨w, c⟩)).1 ≤ maxReq - c := by
  induction ts generalizing c with
  | nil => simp [runLimiter]
  | cons u rest ih =>
    have hu : ¬ windowMs < u - w := not_lt.mpr (h u (List.mem_cons_self u rest))
    have hih := ih (c + 1) (fun v hv => h v (List.mem_cons_of_mem u hv))
    by_cases hc : c + 1 ≤ maxReq <;>
      simp [runLimiter, rateLimitStep, hu, hc] <;> omega

/-- C9: the strict limiter passes at most 10 requests of one identity within
a single 60-second window; a request arriving in-window with the counter
already at 10 is not passed; a limited request on any extraction route
settles as 429 with no effects at all — the Spending Ledger and the Usage
Resolver are never consulted; and an expired window is replaced by a fresh
one (count restarts at this request), not decremented. -/
theorem strict_limiter_spec :
    (∀ (t0 : Nat) (ts : List Nat), (∀ u ∈ ts, u - t0 ≤ 60000) →
      (runLimiter 60000 10 (t0 :: ts) none).1 ≤ 10) ∧
    (∀ (d : RateData) (now : Nat), 10 ≤ d.count → now - d.windowStart ≤ 60000 →
      (recipeRateLimiter now (some d)).1 = false) ∧
    (∀ (now : Nat) (st : Option RateData), (recipeRateLimiter now st).1 = false →
      (∀ e : CleanUrlEnv, (cleanUrlRoute now st e).1 = 429 ∧
        (cleanUrlRoute now st e).2.1 = ({} : Effects)) ∧
      (∀ e : CleanPhotoEnv, (cleanPhotoRoute now st e).1 = 429 ∧
        (cleanPhotoRoute now st e).2.1 = ({} : Effects)) ∧
      (∀ e : CleanYoutubeEnv, (cleanYoutubeRoute now st e).1 = 429 ∧
        (cleanYoutubeRoute now st e).2.1 = ({} : Effects))) ∧
    (∀ (d : RateData) (now : Nat), 60000 < now - d.windowStart →
      (recipeRateLimiter now (some d)).2 = ⟨now, 1⟩) := by
  refine ⟨?_, ?_, ?_, ?_⟩
  · intro t0 ts h
    have hh := runLimiter_count_le 60000 10 ts t0 1 h
    simp only [runLimiter, rateLimitStep]
    simp
    omega
  · intro d now h1 h2
    have h3 : ¬ (d.count + 1 ≤ 10) := by omega
    simp [recipeRateLimiter, rateLimitStep, not_lt.mpr h2, h3]
  · intro now st h
    refine ⟨fun e => ?_, fun e => ?_, fun e => ?_⟩ <;>
      simp [cleanUrlRoute, cleanPhotoRoute, cleanYoutubeRoute, h]
  · intro d now h
    simp [recipeRateLimiter, rateLimitStep, h]

/-- Witness for C9: four quick requests from a fresh identity all fall in
one window and at most 10 pass. -/
theorem strict_limiter_spec_witness :
    (runLimiter 60000 10 (0 :: [1, 2, 3]) none).1 ≤ 10 :=
  strict_limiter_spec.1 0 [1, 2, 3] (by decide)

set_option maxRecDepth 8000 in
/-- C10: `validateAndFixRecipe` computes its issue tags on the raw step list
before coercion and before short steps are dropped: a raw list whose step
instructions are all at most 400 characters never yields `steps_too_long`
(in particular exactly 400 does not), a single 401-character step does; and
a recipe with 6 ingredients and 3 raw steps that all trim to 10 characters
or fewer is returned with 0 surviving steps and an empty issues list. -/
theorem validate_issue_timing :
    (∀ r : RawRecipe, (∀ s ∈ r.steps.getD [], (stepLen s).getD 0 ≤ 400) →
      "steps_too_long" ∉ (validateAndFixRecipe r).2) ∧
    ((validateAndFixRecipe ⟨some "T", some 2, some ["a"],
        some [RawStep.str (String.mk (List.replicate 401 'x'))]⟩).2 =
      ["steps_too_long"]) ∧
    ((validateAndFixRecipe ⟨some "T", some 2, some ["a"],
        some [RawStep.str (String.mk (List.replicate 400 'x'))]⟩).2 = []) ∧
    ((validateAndFixRecipe ⟨some "T", some 2, some ["a", "b", "c", "d", "e", "f"],
        some [RawStep.str "mix", RawStep.str "stir", RawStep.str "bake"]⟩).1.steps.length
        = 0 ∧
     (validateAndFixRecipe ⟨some "T", some 2, some ["a", "b", "c", "d", "e", "f"],
        some [RawStep.str "mix", RawStep.str "stir", RawStep.str "bake"]⟩).1.ingredients.length
        = 6 ∧
     (validateAndFixRecipe ⟨some "T", some 2, some ["a", "b", "c", "d", "e", "f"],
        some [RawStep.str "mix", RawStep.str "stir", RawStep.str "bake"]⟩).2 = []) := by
  refine ⟨?_, ?_, ?_, ?_⟩
  · intro r h
    have hA : ((r.steps.getD []).any fun s =>
        match stepLen s with
        | some l => decide (MAX_STEP_LENGTH < l)
        | none => false) = false := by
      rw [List.any_eq_false]
      intro s hs
      have hl := h s hs
      cases hsl : stepLen s with
      | none => simp
      | some l =>
        rw [hsl] at hl
        simp only [Option.getD_some] at hl
        simp [MAX_STEP_LENGTH]
        omega
    simp only [validateAndFixRecipe, hA]
    split <;> simp_all
  · decide
  · decide
  · refine ⟨?_, ?_, ?_⟩ <;> decide

set_option maxRecDepth 8000 in
/-- Witness for C10: a single step of exactly 400 characters satisfies the
length bound and produces no `steps_too_long` tag. -/
theorem validate_issue_timing_witness :
    "steps_too_long" ∉ (validateAndFixRecipe ⟨some "T", some 2, some ["a"],
        some [RawStep.str (String.mk (List.replicate 400 'x'))]⟩).2 :=
  validate_issue_timing.1
    ⟨some "T", some 2, some ["a"], some [RawStep.str (String.mk (List.replicate 400 'x'))]⟩
    (by decide)

/-- Witness for C7: with a fresh unpaused ledger, a fingerprint at exactly 10
used recipes is denied and told to sign up. -/
theorem anon_quota_witness :
    (canCleanRecipe ⟨0, 0⟩ ⟨0, 0, 0, 0, false⟩ none (some 10)).allowed = false ∧
    (canCleanRecipe ⟨0, 0⟩ ⟨0, 0, 0, 0, false⟩ none (some 10)).reason = some "initial_limit" ∧
    (canCleanRecipe ⟨0, 0⟩ ⟨0, 0, 0, 0, false⟩ none (some 10)).requiresSignup = some true :=
  (anon_quota ⟨0, 0⟩ ⟨0, 0, 0, 0, false⟩ 10
    (by norm_num [isSystemPaused, checkSpendingLimits, getOrResetSpending,
      DAILY_SPENDING_LIMIT, MONTHLY_SPENDING_LIMIT])).2.1
    (by norm_num [INITIAL_FREE_RECIPES])

end Mise
